import Mathlib

/-!
Shallow embedding of the marketplace-installer VS Code extension
(src/extension.js, src/MarketplaceViewProvider.js, src/media/main.js, and the
two unnamed variant files), with theorems settling the frozen claims about it.

External effects (shell commands, HTTP, the webview DOM, the VS Code host) are
modelled as explicit environments passed in, and each embedded operation
returns, besides its result, the trace of commands it executed and the
messages/notifications it posted.
-/

namespace MarketplaceInstaller

/-! ## Process/command runner (execPromise, findPython in src/extension.js) -/

/-- Outcome of running one shell command: `exec`'s callback either reports an
error (with its message and the captured stderr) or succeeds with stdout and
stderr. -/
inductive ExecResult where
  | err (message stderr : String)
  | ok (stdout stderr : String)
deriving DecidableEq, Repr

/-- An execution environment: what each shell command would do if run. -/
def ExecEnv : Type := String → ExecResult

/-- `execPromise(command)`: on error the callback appends stderr to the error
message and rejects; otherwise it resolves with stdout/stderr. -/
def execPromise (env : ExecEnv) (command : String) : Except String (String × String) :=
  match env command with
  | .err m se => .error (m ++ "\n" ++ se)
  | .ok o se => .ok (o, se)

/-- `findPython()`: try `python3 --version`, then `python --version`; the pair
returned is the result together with the trace of commands executed. -/
def findPython (env : ExecEnv) : Except String String × List String :=
  match execPromise env "python3 --version" with
  | .ok _ => (.ok "python3", ["python3 --version"])
  | .error _ =>
    match execPromise env "python --version" with
    | .ok _ => (.ok "python", ["python3 --version", "python --version"])
    | .error _ =>
      (.error "Python is not installed or not in your PATH. Please install Python to use this extension.",
       ["python3 --version", "python --version"])

/-! ## User-visible notifications (vscode.window.show*Message) -/

/-- A notification shown to the user: an information message (optionally with a
button, e.g. the Reload Window offer) or an error message. -/
inductive Notification where
  | info (message : String) (button : Option String)
  | errorMsg (message : String)
deriving DecidableEq, Repr

/-! ## Path helpers (getPythonCommand, getInstallerCommand) -/

/-- `path.join`, modelled with the "/" separator. -/
def pathJoin (a b : String) : String := a ++ "/" ++ b

/-- `getPythonCommand(venvPath)`: platform-dependent python path in the venv. -/
def getPythonCommand (win32 : Bool) (venvPath : String) : String :=
  if win32 then pathJoin (pathJoin venvPath "Scripts") "python.exe"
  else pathJoin (pathJoin venvPath "bin") "python"

/-- `getInstallerCommand(venvPath)`: platform-dependent vsix-to-vscodium path
in the venv. -/
def getInstallerCommand (win32 : Bool) (venvPath : String) : String :=
  if win32 then pathJoin (pathJoin venvPath "Scripts") "vsix-to-vscodium.exe"
  else pathJoin (pathJoin venvPath "bin") "vsix-to-vscodium"

/-! ## Dependency provisioner (ensureDependencies in src/extension.js) -/

deriving instance DecidableEq for Except

/-- Everything observable about one `ensureDependencies` call: its result, the
subprocess commands it executed in order, the notifications it showed, and the
filesystem (a list of existing paths) afterwards. -/
structure EnsureOutcome where
  result : Except String String
  commands : List String
  notifications : List Notification
  fs : List String
deriving DecidableEq, Repr

/-- `ensureDependencies(storagePath)` from src/extension.js: if the installer
binary already exists, return its path with no side effects; otherwise find
python, create the venv, and pip-install vsix-to-vscodium (which, via the
external commands, is what puts the installer binary on disk — modelled by
adding `installerPath` to the filesystem on success). Failures show an error
notification and re-throw. -/
def ensureDependencies (win32 : Bool) (env : ExecEnv) (fs : List String)
    (storagePath : String) : EnsureOutcome :=
  let venvPath := pathJoin storagePath ".venv"
  let installerPath := getInstallerCommand win32 venvPath
  if fs.contains installerPath then
    { result := .ok installerPath, commands := [], notifications := [], fs := fs }
  else
    match findPython env with
    | (.error e, probes) =>
      { result := .error e, commands := probes,
        notifications := [.errorMsg ("Failed to set up Python dependencies: " ++ e)], fs := fs }
    | (.ok pythonCmd, probes) =>
      let venvCmd := pythonCmd ++ " -m venv \"" ++ venvPath ++ "\""
      match execPromise env venvCmd with
      | .error e =>
        { result := .error e, commands := probes ++ [venvCmd],
          notifications := [.errorMsg ("Failed to set up Python dependencies: " ++ e)], fs := fs }
      | .ok _ =>
        let venvPython := getPythonCommand win32 venvPath
        let pipCmd := "\"" ++ venvPython ++ "\" -m pip install vsix-to-vscodium"
        match execPromise env pipCmd with
        | .error e =>
          { result := .error e, commands := probes ++ [venvCmd, pipCmd],
            notifications := [.errorMsg ("Failed to set up Python dependencies: " ++ e)], fs := fs }
        | .ok _ =>
          { result := .ok installerPath, commands := probes ++ [venvCmd, pipCmd],
            notifications := [.info "Marketplace Installer setup complete! You can now search and install extensions." none],
            fs := installerPath :: fs }

/-! ## Install orchestrator (installExtension in src/extension.js) -/

/-- Everything observable about one `installExtension` call: the subprocess
commands executed and the notifications shown. -/
structure InstallOutcome where
  commands : List String
  notifications : List Notification
deriving DecidableEq, Repr

/-- `installExtension(extensionId, installerCmd)`: missing id or installer path
fails immediately with an error notification and spawns nothing; otherwise the
installer is invoked as `"<installerCmd>" <extensionId>`; a rejected exec
yields an error notification carrying the exec error text, a resolved exec
yields the success notification with the Reload Window button (stderr is only
logged, never a failure). -/
def installExtension (env : ExecEnv) (extensionId installerCmd : String) : InstallOutcome :=
  if extensionId = "" ∨ installerCmd = "" then
    { commands := [],
      notifications := [.errorMsg "Installation failed: Missing extension ID or installer command path."] }
  else
    let command := "\"" ++ installerCmd ++ "\" " ++ extensionId
    match execPromise env command with
    | .ok _ =>
      { commands := [command],
        notifications := [.info ("Successfully installed \"" ++ extensionId ++ "\"! Please reload your Codium window to activate the extension.") (some "Reload Window")] }
    | .error m =>
      { commands := [command],
        notifications := [.errorMsg ("Installation Failed for \"" ++ extensionId ++ "\": " ++ m)] }

/-! ## Marketplace client (searchMarketplace in src/MarketplaceViewProvider.js) -/

/-- One file entry inside a version of a gallery response extension. -/
structure GalleryFile where
  assetType : String
  source : String
deriving DecidableEq, Repr

/-- One version entry; `files` is optional (the code guards it with `?.`). -/
structure GalleryVersion where
  files : Option (List GalleryFile)
deriving DecidableEq, Repr

/-- The publisher object of a gallery response extension. -/
structure GalleryPublisher where
  publisherName : String
  displayName : String
deriving DecidableEq, Repr

/-- One extension entry of the gallery response. -/
structure GalleryExtension where
  displayName : String
  publisher : GalleryPublisher
  shortDescription : String
  extensionName : String
  versions : List GalleryVersion
deriving DecidableEq, Repr

/-- One result set of the gallery response (`response.data.results[i]`). -/
structure ResultSet where
  extensions : List GalleryExtension
deriving DecidableEq, Repr

/-- The body of the gallery response (`response.data`). -/
structure GalleryResponse where
  results : List ResultSet
deriving DecidableEq, Repr

/-- The display-ready summary the provider posts to the webview. -/
structure Summary where
  displayName : String
  publisherDisplayName : String
  shortDescription : String
  extensionId : String
  iconUrl : String
  isInstalled : Bool
deriving DecidableEq, Repr

/-- The observable content of the extensionquery request body: the single
criterion (filterType 10 with the query text), pageNumber, pageSize, flags. -/
structure QueryRequest where
  filterType : Nat
  value : String
  pageNumber : Nat
  pageSize : Nat
  flags : Nat
deriving DecidableEq, Repr

/-- The request body `searchMarketplace` builds for a query. -/
def mkQueryRequest (query : String) : QueryRequest :=
  { filterType := 10, value := query, pageNumber := 1, pageSize := 50, flags := 71 }

/-- How one `axios.post` can fail: a response with a non-2xx status, a request
that got no response, or a non-axios error (e.g. a TypeError while reading the
response). -/
inductive HttpFailure where
  | response (status : Nat)
  | request
  | notAxios (message : String)
deriving DecidableEq, Repr

/-- An HTTP environment: what the marketplace endpoint would answer. -/
def HttpEnv : Type := QueryRequest → Except HttpFailure GalleryResponse

/-- JS `String.prototype.toLowerCase` (over the ASCII range this code meets):
lower-case every character. -/
def toLowerCase (s : String) : String := String.mk (s.data.map Char.toLower)

/-- JS `String.prototype.trim`: drop leading and trailing whitespace. -/
def jsTrim (s : String) : String :=
  String.mk (((s.data.dropWhile Char.isWhitespace).reverse.dropWhile Char.isWhitespace).reverse)

/-- The fixed asset-type tag of the default icon. -/
def defaultIconAssetType : String := "Microsoft.VisualStudio.Services.Icons.Default"

/-- The generic search failure message (the initial value of `errorMessage`). -/
def genericSearchFailure : String :=
  "Search failed. Please check your internet connection or try a different search term."

/-- The `errorMessage` the catch block computes from an axios error. -/
def searchErrorMessage : HttpFailure → String
  | .response 404 => "Marketplace API endpoint not found or changed. This extension may need an update."
  | .response 400 => "Invalid search request. The marketplace API might have changed its expected parameters."
  | .response 500 => "Internal server error from Marketplace API. Please try again later."
  | .response _ => genericSearchFailure
  | .request => "Network error during search. Check your internet connection."
  | .notAxios _ => genericSearchFailure

/-- The `iconUrl` field of the mapping:
`ext.versions[0]?.files?.find(f => f.assetType === defaultIcon)?.source || ''`
(`|| ''` is the identity on the found string source, and supplies `''` whenever
the optional chain is undefined). -/
def iconUrlOf (e : GalleryExtension) : String :=
  match e.versions.head? with
  | none => ""
  | some v =>
    match v.files with
    | none => ""
    | some fs =>
      match fs.find? (fun f => f.assetType == defaultIconAssetType) with
      | none => ""
      | some f => f.source

/-- One element of `formattedExtensions`: the mapping applied to a gallery
extension, given the already lower-cased installed-extension id list. -/
def formatExtension (installedExtensions : List String) (e : GalleryExtension) : Summary :=
  { displayName := e.displayName
    publisherDisplayName := e.publisher.displayName
    shortDescription := e.shortDescription
    extensionId := e.publisher.publisherName ++ "." ++ e.extensionName
    iconUrl := iconUrlOf e
    isInstalled := installedExtensions.contains
      (toLowerCase (e.publisher.publisherName ++ "." ++ e.extensionName)) }

/-- A message the provider posts to the webview. -/
inductive WebviewMsg where
  | showInfo (message : String)
  | setLoading
  | showResults (value : List Summary)
  | showError (value : String)
deriving DecidableEq, Repr

/-- Everything observable about one `searchMarketplace` call: the messages
posted to the webview, in order, and the outbound requests issued. -/
structure SearchOutcome where
  posted : List WebviewMsg
  requests : List QueryRequest
deriving DecidableEq, Repr

/-- `searchMarketplace(query)`: no-op when the view is not initialized; an
info message for an empty query; otherwise post `setLoading`, issue exactly one
request, and post `showResults` with the mapped first result set — or
`showError` when the post rejects or `results[0]` is absent (reading
`.extensions` of `undefined` throws, landing in the same catch with the
generic message, since that TypeError is not an axios error). -/
def searchMarketplace (viewInitialized : Bool) (installedIds : List String)
    (env : HttpEnv) (query : String) : SearchOutcome :=
  if !viewInitialized then { posted := [], requests := [] }
  else if query = "" then
    { posted := [.showInfo "Please enter a search term."], requests := [] }
  else
    let req := mkQueryRequest query
    match env req with
    | .ok resp =>
      match resp.results.head? with
      | none =>
        { posted := [.setLoading, .showError genericSearchFailure], requests := [req] }
      | some rs =>
        let installedExtensions := installedIds.map toLowerCase
        { posted := [.setLoading,
            .showResults (rs.extensions.map (formatExtension installedExtensions))],
          requests := [req] }
    | .error e =>
      { posted := [.setLoading, .showError (searchErrorMessage e)], requests := [req] }

/-! ## Webview UI (performSearch in src/media/main.js) -/

/-- An observable effect of the webview script: posting a message to the
extension host, or replacing the results container's HTML. -/
inductive UiEffect where
  | postMessage (msgType : String) (value : String)
  | setHtml (html : String)
deriving DecidableEq, Repr

/-- `performSearch()`: trim the input; a non-empty query is posted to the host
as a `search` message, an empty one only rewrites the results container. -/
def performSearch (inputValue : String) : List UiEffect :=
  let query := jsTrim inputValue
  if query ≠ "" then [.postMessage "search" query]
  else [.setHtml "<p id=\"info-message\">Please enter a search term.</p>"]

/-! ## Activation flows: the shared dependency-setup promise

The k-th fresh `ensureDependencies` run is abstracted by an oracle giving its
settled result; a promise reference is the index of the attempt it refers to,
so "awaiting the promise" returns that attempt's settled result again. -/

/-- Settled result of the k-th fresh provisioning attempt. -/
def SetupOracle : Type := Nat → Except String String

/-- Shared-promise state of `activate` in src/extension.js: which attempt the
promise refers to, and how many attempts were ever started. -/
structure ActivateState where
  promiseAttempt : Nat
  attemptsStarted : Nat
deriving DecidableEq, Repr

/-- `activate` in src/extension.js: `dependencySetupPromise` is set once to
attempt 0 and never reassigned afterwards. -/
def activateExtJs : ActivateState := { promiseAttempt := 0, attemptsStarted := 1 }

/-- The `installFromInput` handler in src/extension.js: it only awaits the
shared promise (whose rejection lands in its catch), never replacing it. -/
def installFromInputStep (o : SetupOracle) (s : ActivateState) :
    ActivateState × Except String String :=
  (s, o s.promiseAttempt)

/-- Shared-promise state of `activate` in src/unnamed/part_000: the reference
may be null (`none`), which the catch handler sets on the initial failure. -/
structure ActivateStateP0 where
  promiseRef : Option Nat
  attemptsStarted : Nat
deriving DecidableEq, Repr

/-- `activate` in src/unnamed/part_000: attempt 0 starts, and the attached
`.catch` nulls `dependencySetupPromise` when it rejects. -/
def activateP0 (o : SetupOracle) : ActivateStateP0 :=
  match o 0 with
  | .error _ => { promiseRef := none, attemptsStarted := 1 }
  | .ok _ => { promiseRef := some 0, attemptsStarted := 1 }

/-- The `installExtension` command handler in src/unnamed/part_000: when the
reference is null it starts a fresh attempt and stores it (with no new catch
attached, so this one stays even if it rejects), then awaits the stored
promise. -/
def installCmdStepP0 (o : SetupOracle) (s : ActivateStateP0) :
    ActivateStateP0 × Except String String :=
  match s.promiseRef with
  | none =>
    let k := s.attemptsStarted
    ({ promiseRef := some k, attemptsStarted := k + 1 }, o k)
  | some k => (s, o k)

/-! ## Identifier validation (validateInput in src/unnamed/part_000) -/

/-- Membership in the character class `[a-z0-9-]` under the `i` flag. -/
def isIdChar (c : Char) : Bool :=
  (decide ('a' ≤ c) && decide (c ≤ 'z')) ||
  (decide ('A' ≤ c) && decide (c ≤ 'Z')) ||
  (decide ('0' ≤ c) && decide (c ≤ '9')) || decide (c = '-')

/-- A nonempty run of `[a-z0-9-]` characters (one `+` group of the pattern). -/
def idChars (cs : List Char) : Bool := !cs.isEmpty && cs.all isIdChar

/-- Splits a character list at every `'.'` (`idSegments "a.b" = [a, b]`). -/
def idSegments : List Char → List (List Char)
  | [] => [[]]
  | c :: cs =>
    let rest := idSegments cs
    if c = '.' then [] :: rest
    else
      match rest with
      | [] => [[c]]
      | seg :: segs => (c :: seg) :: segs

/-- The anchored test `/^[a-z0-9-]+\.[a-z0-9-]+$/i.test(text)`: exactly one
dot (the class excludes it), and a nonempty class-run on each side. -/
def validExtensionId (s : String) : Bool :=
  match idSegments s.data with
  | [a, b] => idChars a && idChars b
  | _ => false

/-- The `validateInput` callback of src/unnamed/part_000 (null means valid). -/
def validateInputP0 (text : String) : Option String :=
  if validExtensionId text then none
  else some "Invalid format. Use \"publisher.extension-name\"."

/-- Host input-box contract: with a `validateInput` callback, `showInputBox`
only resolves with a value the callback accepts (returns null on); otherwise
the box stays open until the user cancels. `entered` is what the user tries to
submit, `none` a cancellation. -/
def showInputBoxValidated (validate : String → Option String) (entered : Option String) :
    Option String :=
  match entered with
  | none => none
  | some s =>
    match validate s with
    | none => some s
    | some _ => none

/-- The id the `installFromInput` command of src/extension.js hands to the
install flow: its input box has no `validateInput`, and any truthy entered
string is passed on. -/
def installFromInputAccepted (entered : Option String) : Option String :=
  match entered with
  | none => none
  | some s => if s = "" then none else some s

/-- The id the `installExtension` command of src/unnamed/part_000 hands to the
install flow: its input box validates with `validateInputP0`, and a falsy
result only shows "Installation cancelled.". -/
def installCmdAcceptedP0 (entered : Option String) : Option String :=
  match showInputBoxValidated validateInputP0 entered with
  | none => none
  | some s => if s = "" then none else some s

/-! ## Spec-side icon extraction (for comparison with the code's mapping) -/

/-- Written after the spec's words, for comparison with `iconUrlOf`: the
source of the first file whose assetType equals the default-icon tag. -/
def iconSpecFirst : List GalleryFile → String
  | [] => ""
  | f :: fs => if f.assetType = defaultIconAssetType then f.source else iconSpecFirst fs

/-- Written after the spec's words, for comparison with `iconUrlOf`: take the
first version entry's file list and pick the first default-icon asset's source,
the empty string when the version list, the file list, or a matching asset is
absent. -/
def iconSpec (e : GalleryExtension) : String :=
  match e.versions with
  | [] => ""
  | v :: _ =>
    match v.files with
    | none => ""
    | some fs => iconSpecFirst fs

/-- The code's `find?`-based extraction agrees with the first-match recursion. -/
theorem find?_eq_iconSpecFirst (fs : List GalleryFile) :
    (match fs.find? (fun f => f.assetType == defaultIconAssetType) with
     | none => ""
     | some f => f.source) = iconSpecFirst fs := by
  induction fs with
  | nil => rfl
  | cons f fs ih =>
    by_cases h : f.assetType = defaultIconAssetType
    · rw [List.find?_cons_of_pos _ (by simp [h])]
      simp [iconSpecFirst, h]
    · rw [List.find?_cons_of_neg _ (by simp [h])]
      simp [iconSpecFirst, h, ih]

/-! ## Claim theorems -/

/-- C2: once the installer binary exists at the deterministic venv subpath
under the storage root, `ensureDependencies` returns that path immediately
with no side effects (no commands, no notifications, filesystem unchanged),
and a second sequential call likewise executes zero subprocess commands. -/
theorem ensureDependencies_idempotent_when_installed
    (win32 : Bool) (env : ExecEnv) (fs : List String) (storagePath : String)
    (h : fs.contains (getInstallerCommand win32 (pathJoin storagePath ".venv")) = true) :
    ensureDependencies win32 env fs storagePath =
      { result := .ok (getInstallerCommand win32 (pathJoin storagePath ".venv")),
        commands := [], notifications := [], fs := fs } ∧
    (ensureDependencies win32 env (ensureDependencies win32 env fs storagePath).fs
        storagePath).commands = [] := by
  have hm : getInstallerCommand win32 (pathJoin storagePath ".venv") ∈ fs := by
    simpa using h
  have h1 : ensureDependencies win32 env fs storagePath =
      { result := .ok (getInstallerCommand win32 (pathJoin storagePath ".venv")),
        commands := [], notifications := [], fs := fs } := by
    unfold ensureDependencies
    simp [h]
    intro hnot
    exact absurd hm hnot
  exact ⟨h1, by rw [h1, h1]⟩

/-- C2 witness: a concrete storage root with the binary already present. -/
theorem ensureDependencies_idempotent_witness :
    ["/store/.venv/bin/vsix-to-vscodium"].contains
        (getInstallerCommand false (pathJoin "/store" ".venv")) = true ∧
    (ensureDependencies false (fun _ => .err "unused" "")
        ["/store/.venv/bin/vsix-to-vscodium"] "/store" =
      { result := .ok (getInstallerCommand false (pathJoin "/store" ".venv")),
        commands := [], notifications := [],
        fs := ["/store/.venv/bin/vsix-to-vscodium"] } ∧
     (ensureDependencies false (fun _ => .err "unused" "")
        (ensureDependencies false (fun _ => .err "unused" "")
          ["/store/.venv/bin/vsix-to-vscodium"] "/store").fs "/store").commands = []) :=
  ⟨by decide,
   ensureDependencies_idempotent_when_installed false (fun _ => .err "unused" "")
     ["/store/.venv/bin/vsix-to-vscodium"] "/store" (by decide)⟩

/-- C3: with a non-empty id and a resolved installer handle, `installExtension`
executes exactly one subprocess, the quoted installer followed by the id as its
sole argument; a rejected exec (non-zero exit) produces only an error
notification carrying the captured diagnostic text — no info notification and
no Reload Window offer — and a resolved exec (zero exit) produces the success
notification with the Reload Window button regardless of stderr content. -/
theorem installExtension_exit_code_semantics
    (env : ExecEnv) (extensionId installerCmd : String)
    (hid : extensionId ≠ "") (hcmd : installerCmd ≠ "") :
    (installExtension env extensionId installerCmd).commands =
      ["\"" ++ installerCmd ++ "\" " ++ extensionId] ∧
    (∀ m se, env ("\"" ++ installerCmd ++ "\" " ++ extensionId) = .err m se →
      (installExtension env extensionId installerCmd).notifications =
        [.errorMsg ("Installation Failed for \"" ++ extensionId ++ "\": " ++ (m ++ "\n" ++ se))] ∧
      ∀ msg btn, Notification.info msg btn ∉
        (installExtension env extensionId installerCmd).notifications) ∧
    (∀ o se, env ("\"" ++ installerCmd ++ "\" " ++ extensionId) = .ok o se →
      (installExtension env extensionId installerCmd).notifications =
        [.info ("Successfully installed \"" ++ extensionId ++
            "\"! Please reload your Codium window to activate the extension.")
          (some "Reload Window")]) := by
  have hcond : ¬(extensionId = "" ∨ installerCmd = "") := by
    rintro (h | h) <;> [exact hid h; exact hcmd h]
  unfold installExtension execPromise
  rw [if_neg hcond]
  refine ⟨?_, ?_, ?_⟩
  · cases henv : env ("\"" ++ installerCmd ++ "\" " ++ extensionId) <;> simp [henv]
  · intro m se henv
    simp [henv]
  · intro o se henv
    simp [henv]

/-- C3 witness: a concrete environment in which the installer exits non-zero,
and one in which it exits zero with stderr output. -/
theorem installExtension_exit_code_witness :
    ("pub.ext" : String) ≠ "" ∧ ("/v/bin/vsix-to-vscodium" : String) ≠ "" ∧
    ((installExtension (fun _ => .err "Command failed: exit 1" "tool stderr")
        "pub.ext" "/v/bin/vsix-to-vscodium").notifications =
      [.errorMsg "Installation Failed for \"pub.ext\": Command failed: exit 1\ntool stderr"] ∧
     ∀ msg btn, Notification.info msg btn ∉
       (installExtension (fun _ => .err "Command failed: exit 1" "tool stderr")
         "pub.ext" "/v/bin/vsix-to-vscodium").notifications) ∧
    (installExtension (fun _ => .ok "done" "a warning on stderr")
        "pub.ext" "/v/bin/vsix-to-vscodium").notifications =
      [.info "Successfully installed \"pub.ext\"! Please reload your Codium window to activate the extension."
        (some "Reload Window")] :=
  ⟨by decide, by decide,
   (installExtension_exit_code_semantics (fun _ => .err "Command failed: exit 1" "tool stderr")
       "pub.ext" "/v/bin/vsix-to-vscodium" (by decide) (by decide)).2.1
     "Command failed: exit 1" "tool stderr" rfl,
   (installExtension_exit_code_semantics (fun _ => .ok "done" "a warning on stderr")
       "pub.ext" "/v/bin/vsix-to-vscodium" (by decide) (by decide)).2.2
     "done" "a warning on stderr" rfl⟩

/-- C7: with an empty/missing extension id or installer handle,
`installExtension` fails immediately with the precondition error notification
and spawns no subprocess. -/
theorem installExtension_precondition
    (env : ExecEnv) (extensionId installerCmd : String)
    (h : extensionId = "" ∨ installerCmd = "") :
    installExtension env extensionId installerCmd =
      { commands := [],
        notifications :=
          [.errorMsg "Installation failed: Missing extension ID or installer command path."] } := by
  unfold installExtension
  rw [if_pos h]

/-- C7 witness: a missing extension id with a resolved handle. -/
theorem installExtension_precondition_witness :
    (("" : String) = "" ∨ ("/v/bin/vsix-to-vscodium" : String) = "") ∧
    installExtension (fun _ => .ok "" "") "" "/v/bin/vsix-to-vscodium" =
      { commands := [],
        notifications :=
          [.errorMsg "Installation failed: Missing extension ID or installer command path."] } :=
  ⟨Or.inl rfl,
   installExtension_precondition (fun _ => .ok "" "") "" "/v/bin/vsix-to-vscodium" (Or.inl rfl)⟩

/-- C4: the computed `isInstalled` flag is true iff the lower-cased candidate
id (publisherName ++ "." ++ extensionName) is a member of the lower-cased
installed-id list; in particular, with installed set {"ms-python.python"} and
candidate id "MS-Python.Python" the flag is true. -/
theorem isInstalled_iff_lowercased_membership :
    (∀ (installedIds : List String) (e : GalleryExtension),
      (formatExtension (installedIds.map toLowerCase) e).isInstalled = true ↔
        toLowerCase (e.publisher.publisherName ++ "." ++ e.extensionName) ∈
          installedIds.map toLowerCase) ∧
    (formatExtension (["ms-python.python"].map toLowerCase)
      { displayName := "Python",
        publisher := { publisherName := "MS-Python", displayName := "Microsoft" },
        shortDescription := "", extensionName := "Python",
        versions := [] }).isInstalled = true := by
  constructor
  · intro installedIds e
    simp [formatExtension, List.contains]
  · decide

/-- Branch computation: successful response with a first result set. -/
theorem searchMarketplace_ok_some (installedIds : List String) (env : HttpEnv)
    (query : String) (resp : GalleryResponse) (rs : ResultSet) (hq : query ≠ "")
    (henv : env (mkQueryRequest query) = .ok resp) (hh : resp.results.head? = some rs) :
    searchMarketplace true installedIds env query =
      { posted := [.setLoading,
          .showResults (rs.extensions.map (formatExtension (installedIds.map toLowerCase)))],
        requests := [mkQueryRequest query] } := by
  unfold searchMarketplace
  simp [hq, henv, hh]

/-- Branch computation: successful response with no result set at index 0. -/
theorem searchMarketplace_ok_none (installedIds : List String) (env : HttpEnv)
    (query : String) (resp : GalleryResponse) (hq : query ≠ "")
    (henv : env (mkQueryRequest query) = .ok resp) (hh : resp.results.head? = none) :
    searchMarketplace true installedIds env query =
      { posted := [.setLoading, .showError genericSearchFailure],
        requests := [mkQueryRequest query] } := by
  unfold searchMarketplace
  simp [hq, henv, hh]

/-- Branch computation: the request rejects. -/
theorem searchMarketplace_rejected (installedIds : List String) (env : HttpEnv)
    (query : String) (e : HttpFailure) (hq : query ≠ "")
    (henv : env (mkQueryRequest query) = .error e) :
    searchMarketplace true installedIds env query =
      { posted := [.setLoading, .showError (searchErrorMessage e)],
        requests := [mkQueryRequest query] } := by
  unfold searchMarketplace
  simp [hq, henv]

/-- C5: for a non-empty query (with the view initialized), `searchMarketplace`
issues exactly one outbound request, whose body carries page number 1 and page
size 50, and on a successful response the displayed list is exactly the mapped
first result set — same length, same order. -/
theorem searchMarketplace_one_request_first_page
    (installedIds : List String) (env : HttpEnv) (query : String) (hq : query ≠ "") :
    (searchMarketplace true installedIds env query).requests = [mkQueryRequest query] ∧
    (mkQueryRequest query).pageNumber = 1 ∧
    (mkQueryRequest query).pageSize = 50 ∧
    (∀ resp rs, env (mkQueryRequest query) = .ok resp → resp.results.head? = some rs →
      (searchMarketplace true installedIds env query).posted =
        [.setLoading,
         .showResults (rs.extensions.map (formatExtension (installedIds.map toLowerCase)))] ∧
      (rs.extensions.map (formatExtension (installedIds.map toLowerCase))).length =
        rs.extensions.length) := by
  refine ⟨?_, rfl, rfl, ?_⟩
  · cases henv : env (mkQueryRequest query) with
    | ok resp =>
      cases hh : resp.results.head? with
      | none => rw [searchMarketplace_ok_none installedIds env query resp hq henv hh]
      | some rs => rw [searchMarketplace_ok_some installedIds env query resp rs hq henv hh]
    | error e => rw [searchMarketplace_rejected installedIds env query e hq henv]
  · intro resp rs henv hh
    rw [searchMarketplace_ok_some installedIds env query resp rs hq henv hh]
    exact ⟨rfl, List.length_map _ _⟩

/-- A concrete gallery extension used by the search witnesses. -/
def sampleGalleryExt : GalleryExtension :=
  { displayName := "Python",
    publisher := { publisherName := "MS-Python", displayName := "Microsoft" },
    shortDescription := "IntelliSense",
    extensionName := "Python",
    versions := [{ files := some [{ assetType := "Microsoft.VisualStudio.Services.Icons.Default",
                                    source := "https://icons.example/python.png" }] }] }

/-- The result set those witnesses receive. -/
def sampleResultSet : ResultSet := { extensions := [sampleGalleryExt] }

/-- The response body those witnesses receive. -/
def sampleResponse : GalleryResponse := { results := [sampleResultSet] }

/-- A concrete HTTP environment answering `sampleResponse` to every request. -/
def sampleEnv : HttpEnv := fun _ => .ok sampleResponse

/-- C5 witness: the concrete environment answering a one-element result set. -/
theorem searchMarketplace_one_request_witness :
    ("python" : String) ≠ "" ∧
    (searchMarketplace true ["ms-python.python"] sampleEnv "python").requests =
      [mkQueryRequest "python"] ∧
    ((searchMarketplace true ["ms-python.python"] sampleEnv "python").posted =
      [.setLoading,
       .showResults (sampleResultSet.extensions.map
         (formatExtension (["ms-python.python"].map toLowerCase)))] ∧
     (sampleResultSet.extensions.map
        (formatExtension (["ms-python.python"].map toLowerCase))).length =
       sampleResultSet.extensions.length) :=
  ⟨by decide,
   (searchMarketplace_one_request_first_page ["ms-python.python"] sampleEnv "python"
      (by decide)).1,
   (searchMarketplace_one_request_first_page ["ms-python.python"] sampleEnv "python"
      (by decide)).2.2.2 sampleResponse sampleResultSet rfl rfl⟩

/-- C9: the mapped summary's iconUrl is the source of the first file whose
assetType equals the fixed default-icon tag within the entry's first version,
and the empty string when the version list, the file list, or a matching asset
is absent — i.e. the code's extraction coincides with the spec-shaped one. -/
theorem iconUrl_matches_spec (installedExtensions : List String) (e : GalleryExtension) :
    (formatExtension installedExtensions e).iconUrl = iconSpec e := by
  show iconUrlOf e = iconSpec e
  unfold iconUrlOf iconSpec
  cases hv : e.versions with
  | nil => simp
  | cons v vs =>
    simp only [List.head?_cons]
    cases hf : v.files with
    | none => simp
    | some fs => simpa using find?_eq_iconSpecFirst fs

/-- C8: an input whose trimmed value is empty makes the webview's search
submission rewrite the results container with the info message and post no
message of any type to the extension host. -/
theorem performSearch_empty_input (inputValue : String) (h : jsTrim inputValue = "") :
    performSearch inputValue =
      [.setHtml "<p id=\"info-message\">Please enter a search term.</p>"] ∧
    ∀ t v, UiEffect.postMessage t v ∉ performSearch inputValue := by
  have h1 : performSearch inputValue =
      [.setHtml "<p id=\"info-message\">Please enter a search term.</p>"] := by
    unfold performSearch
    simp [h]
  exact ⟨h1, by simp [h1]⟩

/-- C8 witness: a whitespace-only input. -/
theorem performSearch_empty_input_witness :
    jsTrim "   " = "" ∧
    (performSearch "   " =
        [.setHtml "<p id=\"info-message\">Please enter a search term.</p>"] ∧
      ∀ t v, UiEffect.postMessage t v ∉ performSearch "   ") :=
  ⟨by decide, performSearch_empty_input "   " (by decide)⟩

/-- C10: with the view uninitialized `searchMarketplace` posts nothing; with a
non-empty query it posts `setLoading` first and then exactly one terminal
message, which is a `showResults` iff the request and the first-result-set
read succeed and a `showError` iff they do not — never both, never neither. -/
theorem searchMarketplace_terminal_message
    (installedIds : List String) (env : HttpEnv) (query : String) :
    (searchMarketplace false installedIds env query).posted = [] ∧
    (query ≠ "" → ∃ t,
      (searchMarketplace true installedIds env query).posted = [.setLoading, t] ∧
      ((∃ v, t = .showResults v) ↔
        ∃ resp rs, env (mkQueryRequest query) = .ok resp ∧ resp.results.head? = some rs) ∧
      ((∃ m, t = .showError m) ↔
        ¬∃ resp rs, env (mkQueryRequest query) = .ok resp ∧ resp.results.head? = some rs)) := by
  constructor
  · rfl
  · intro hq
    cases henv : env (mkQueryRequest query) with
    | ok resp =>
      cases hh : resp.results.head? with
      | none =>
        have hno : ¬∃ resp' rs',
            (Except.ok resp : Except HttpFailure GalleryResponse) = Except.ok resp' ∧
              resp'.results.head? = some rs' := by
          rintro ⟨resp', rs', h1, h2⟩
          injection h1 with h1
          subst h1
          rw [hh] at h2
          exact Option.noConfusion h2
        refine ⟨.showError genericSearchFailure, ?_, ?_, ?_⟩
        · rw [searchMarketplace_ok_none installedIds env query resp hq henv hh]
        · constructor
          · rintro ⟨v, hv⟩
            exact WebviewMsg.noConfusion hv
          · intro hx
            exact absurd hx hno
        · constructor
          · intro _
            exact hno
          · intro _
            exact ⟨genericSearchFailure, rfl⟩
      | some rs =>
        have hyes : ∃ resp' rs',
            (Except.ok resp : Except HttpFailure GalleryResponse) = Except.ok resp' ∧
              resp'.results.head? = some rs' := ⟨resp, rs, rfl, hh⟩
        refine ⟨.showResults (rs.extensions.map
          (formatExtension (installedIds.map toLowerCase))), ?_, ?_, ?_⟩
        · rw [searchMarketplace_ok_some installedIds env query resp rs hq henv hh]
        · constructor
          · intro _
            exact hyes
          · intro _
            exact ⟨_, rfl⟩
        · constructor
          · rintro ⟨m, hm⟩
            exact WebviewMsg.noConfusion hm
          · intro hx
            exact absurd hyes hx
    | error e =>
      have hno : ¬∃ resp' rs',
          (Except.error e : Except HttpFailure GalleryResponse) = Except.ok resp' ∧
            resp'.results.head? = some rs' := by
        rintro ⟨resp', rs', h1, h2⟩
        exact Except.noConfusion h1
      refine ⟨.showError (searchErrorMessage e), ?_, ?_, ?_⟩
      · rw [searchMarketplace_rejected installedIds env query e hq henv]
      · constructor
        · rintro ⟨v, hv⟩
          exact WebviewMsg.noConfusion hv
        · intro hx
          exact absurd hx hno
      · constructor
        · intro _
          exact hno
        · intro _
          exact ⟨searchErrorMessage e, rfl⟩

/-- C10 witness: the concrete successful environment, non-empty query. -/
theorem searchMarketplace_terminal_message_witness :
    ∃ t, (searchMarketplace true ["ms-python.python"] sampleEnv "python").posted =
        [.setLoading, t] ∧
      ((∃ v, t = .showResults v) ↔
        ∃ resp rs, sampleEnv (mkQueryRequest "python") = .ok resp ∧
          resp.results.head? = some rs) ∧
      ((∃ m, t = .showError m) ↔
        ¬∃ resp rs, sampleEnv (mkQueryRequest "python") = .ok resp ∧
          resp.results.head? = some rs) :=
  (searchMarketplace_terminal_message ["ms-python.python"] sampleEnv "python").2 (by decide)

/-- A setup oracle whose initial attempt fails and whose later fresh attempts
would succeed. -/
def failingFirstAttempt : SetupOracle :=
  fun k => if k = 0 then .error "Failed to set up Python dependencies" else .ok "installer"

/-- C1 counterexample: in src/extension.js's `activate`, after the initial
`ensureDependencies` attempt fails, the next run of the install command does
not start a fresh provisioning attempt — the state is unchanged (no new
attempt is started, even though a fresh one would succeed) and the invocation
returns the old failed result again. -/
theorem setupFailure_cached_counterexample :
    (installFromInputStep failingFirstAttempt activateExtJs).2 =
      .error "Failed to set up Python dependencies" ∧
    (installFromInputStep failingFirstAttempt
      (installFromInputStep failingFirstAttempt activateExtJs).1).1 = activateExtJs ∧
    (installFromInputStep failingFirstAttempt
      (installFromInputStep failingFirstAttempt activateExtJs).1).1.attemptsStarted = 1 ∧
    (installFromInputStep failingFirstAttempt
      (installFromInputStep failingFirstAttempt activateExtJs).1).2 =
      .error "Failed to set up Python dependencies" := by
  decide

/-- C1 (amended): only the initial activation-time attempt's failure is
un-cached, and only in the src/unnamed/part_000 variant: its catch handler
nulls the shared promise, so the next install-command run starts a fresh
`ensureDependencies` attempt (attempt 1); but a failure of that command-started
retry is cached (no catch is attached to it), and in src/extension.js the
shared promise is never discarded, so every later invocation returns the same
old failed result with no fresh attempt. -/
theorem setupFailure_retry_semantics (o : SetupOracle) (e : String) (h : o 0 = .error e) :
    (activateP0 o).promiseRef = none ∧
    (installCmdStepP0 o (activateP0 o)).2 = o 1 ∧
    (installCmdStepP0 o (activateP0 o)).1.attemptsStarted = 2 ∧
    (∀ e', o 1 = .error e' →
      (installCmdStepP0 o (installCmdStepP0 o (activateP0 o)).1).2 = .error e' ∧
      (installCmdStepP0 o (installCmdStepP0 o (activateP0 o)).1).1 =
        (installCmdStepP0 o (activateP0 o)).1) ∧
    (installFromInputStep o activateExtJs).2 = .error e ∧
    (installFromInputStep o (installFromInputStep o activateExtJs).1) =
      (activateExtJs, .error e) := by
  have ha : activateP0 o = { promiseRef := none, attemptsStarted := 1 } := by
    unfold activateP0
    rw [h]
  have hext : installFromInputStep o activateExtJs = (activateExtJs, .error e) := by
    unfold installFromInputStep activateExtJs
    simpa using h
  refine ⟨by rw [ha], by rw [ha]; rfl, by rw [ha]; rfl, ?_, ?_, ?_⟩
  · intro e' h1
    rw [ha]
    constructor
    · show o 1 = .error e'
      exact h1
    · rfl
  · rw [hext]
  · rw [hext]
    exact hext

/-- C1 amended-claim witness: the concrete oracle whose initial attempt
fails. -/
theorem setupFailure_retry_witness :
    failingFirstAttempt 0 = .error "Failed to set up Python dependencies" ∧
    ((activateP0 failingFirstAttempt).promiseRef = none ∧
     (installCmdStepP0 failingFirstAttempt (activateP0 failingFirstAttempt)).2 =
       failingFirstAttempt 1 ∧
     (installCmdStepP0 failingFirstAttempt
       (activateP0 failingFirstAttempt)).1.attemptsStarted = 2 ∧
     (∀ e', failingFirstAttempt 1 = .error e' →
       (installCmdStepP0 failingFirstAttempt
         (installCmdStepP0 failingFirstAttempt (activateP0 failingFirstAttempt)).1).2 =
           .error e' ∧
       (installCmdStepP0 failingFirstAttempt
         (installCmdStepP0 failingFirstAttempt (activateP0 failingFirstAttempt)).1).1 =
           (installCmdStepP0 failingFirstAttempt (activateP0 failingFirstAttempt)).1) ∧
     (installFromInputStep failingFirstAttempt activateExtJs).2 =
       .error "Failed to set up Python dependencies" ∧
     (installFromInputStep failingFirstAttempt
       (installFromInputStep failingFirstAttempt activateExtJs).1) =
       (activateExtJs, .error "Failed to set up Python dependencies")) :=
  ⟨by decide,
   setupFailure_retry_semantics failingFirstAttempt
     "Failed to set up Python dependencies" (by decide)⟩

/-- C6 counterexample: src/extension.js's `installFromInput` command accepts
"ms_python.python" from manual input and hands it to the install flow even
though it fails the `^[a-z0-9-]+\.[a-z0-9-]+$` pattern (underscore), so an
identifier failing the pattern is passed to the installer. -/
theorem unvalidated_input_counterexample :
    installFromInputAccepted (some "ms_python.python") = some "ms_python.python" ∧
    validExtensionId "ms_python.python" = false := by
  decide

/-- C6 (amended): the pattern itself behaves as claimed — "ms-python.python"
and "MS-Python.Python" pass, "ms-python" (no dot) and "ms_python.python"
(underscore) fail — but only the src/unnamed/part_000 install command
validates manual input against it before running the install flow; the
`installFromInput` command of src/extension.js passes any non-empty input to
the installer unvalidated. -/
theorem pattern_validation_semantics :
    validExtensionId "ms-python.python" = true ∧
    validExtensionId "MS-Python.Python" = true ∧
    validExtensionId "ms-python" = false ∧
    validExtensionId "ms_python.python" = false ∧
    (∀ entered s, installCmdAcceptedP0 entered = some s → validExtensionId s = true) ∧
    (∀ s, s ≠ "" → installFromInputAccepted (some s) = some s) := by
  refine ⟨by decide, by decide, by decide, by decide, ?_, ?_⟩
  · intro entered s h
    cases entered with
    | none => exact Option.noConfusion h
    | some s' =>
      by_cases hv : validExtensionId s' = true
      · by_cases hs : s' = ""
        · subst hs
          exact absurd hv (by decide)
        · simp [installCmdAcceptedP0, showInputBoxValidated, validateInputP0, hv, hs] at h
          exact h ▸ hv
      · simp [installCmdAcceptedP0, showInputBoxValidated, validateInputP0, hv] at h
  · intro s hs
    simp [installFromInputAccepted, hs]

/-- C6 amended-claim witness: a valid id is accepted by the validated command,
and the unvalidated command passes on a non-empty input. -/
theorem pattern_validation_witness :
    installCmdAcceptedP0 (some "ms-python.python") = some "ms-python.python" ∧
    validExtensionId "ms-python.python" = true ∧
    ("abc" : String) ≠ "" ∧
    installFromInputAccepted (some "abc") = some "abc" :=
  ⟨by decide,
   pattern_validation_semantics.2.2.2.2.1 (some "ms-python.python") "ms-python.python"
     (by decide),
   by decide,
   pattern_validation_semantics.2.2.2.2.2 "abc" (by decide)⟩

end MarketplaceInstaller
